import Mathlib

/-!
# Watermark tool front end (web/static/js/app.js)

A shallow embedding of the browser-side controller. The page is a record of
the DOM properties the script reads and writes; every handler is a function
on that record. Requests handed to the network are returned next to the new
page state. Timers, scrolling and CSS are outside the model. Every element
the script looks up by id is taken to exist.
-/

namespace WatermarkTool

/-! ## Strings -/

/-- Code points that `String.prototype.trim` and `parseInt` skip: the
ECMAScript WhiteSpace and LineTerminator productions. -/
def isWhiteSpace (c : Char) : Bool :=
  c.toNat = 0x09 || c.toNat = 0x0A || c.toNat = 0x0B || c.toNat = 0x0C || c.toNat = 0x0D ||
  c.toNat = 0x20 || c.toNat = 0xA0 || c.toNat = 0x1680 ||
  (0x2000 ≤ c.toNat && c.toNat ≤ 0x200A) ||
  c.toNat = 0x2028 || c.toNat = 0x2029 || c.toNat = 0x202F || c.toNat = 0x205F ||
  c.toNat = 0x3000 || c.toNat = 0xFEFF

/-- Leading white space removed. -/
def trimStart (cs : List Char) : List Char := cs.dropWhile isWhiteSpace

/-- The method `trim` of a string: white space removed at both ends. -/
def trim (s : String) : String :=
  ⟨(trimStart (trimStart s.data).reverse).reverse⟩

/-- Truthiness of a string value: every string but the empty one. -/
def truthy (s : String) : Bool := !(s.data.isEmpty)

/-- Conversion of a boolean inside a template literal. -/
def boolToString (b : Bool) : String := if b then "true" else "false"

/-! ## Page state -/

/-- A file chosen in a file input. -/
structure File where
  name : String
  size : Nat
  deriving DecidableEq, Repr

/-- A value appended to a `FormData`. -/
inductive FormValue where
  | file (f : File)
  | text (s : String)
  deriving DecidableEq, Repr

/-- An HTTP request as handed to the network. -/
structure Request where
  method : String
  url : String
  form : List (String × FormValue)
  deriving DecidableEq, Repr

/-- An `XMLHttpRequest` object: what was opened and sent, the response type
asked for, and the response fields the browser fills in. -/
structure XHR where
  request : Request
  responseType : String
  status : Nat
  responseURL : String
  responseBody : String
  deriving DecidableEq, Repr

/-- A submit button. -/
structure Button where
  disabled : Bool
  innerHTML : String
  deriving DecidableEq, Repr

/-- An inline result panel. -/
structure Panel where
  display : String
  innerHTML : String
  deriving DecidableEq, Repr

/-- A progress area with its fill bar and its value label. -/
structure Progress where
  display : String
  fillWidth : String
  valueText : String
  deriving DecidableEq, Repr

/-- A notification element appended to the body by `showNotification`. -/
structure Notification where
  className : String
  innerHTML : String
  deriving DecidableEq, Repr

/-- The part of the page the script works on. -/
structure Page where
  addFiles : List File
  extractFiles : List File
  watermarkText : String
  addShowTimestamp : Bool
  extractShowTimestamp : Bool
  addProgress : Progress
  extractProgress : Progress
  addResult : Panel
  extractResult : Panel
  addBtn : Button
  extractBtn : Button
  notifications : List Notification
  darkMode : Bool
  themeToggleHTML : String
  storedTheme : Option String
  prefersDark : Bool
  previewSize : Option String
  previewFontSize : String
  previewAngle : Option String
  previewTransform : String
  deriving DecidableEq, Repr

/-! ## Notifications -/

/-- The function `showNotification(message, type)`: a new element with class
`notification <type>` holding an icon and the message is appended to the
body. The timers that fade it in and remove it are not modelled. -/
def showNotification (message type : String) (s : Page) : Page :=
  { s with
    notifications := s.notifications ++
      [{ className := "notification " ++ type
         innerHTML :=
           "\n        <span class=\"icon\">\n            <i class=\"fas fa-" ++
           (if type = "error" then "exclamation-circle" else "check-circle") ++
           "\"></i>\n        </span>\n        <span>" ++ message ++ "</span>\n    " }] }

/-! ## Form submission -/

/-- Label of a button while its request is running. -/
def busyLabel : String :=
  "<span class=\"icon\"><i class=\"fas fa-spinner fa-spin\"></i></span><span>处理中...</span>"

/-- Label written back to the add button when its request ends. -/
def addLabel : String :=
  "<span class=\"icon\"><i class=\"fas fa-stamp\"></i></span><span>添加水印</span>"

/-- Label written back to the extract button when its request ends. -/
def extractLabel : String :=
  "<span class=\"icon\"><i class=\"fas fa-search\"></i></span><span>提取水印</span>"

/-- The handler `handleAddWatermark`, up to and including `xhr.send`: the new
page and the `XMLHttpRequest` that was sent, if any. -/
def handleAddWatermark (s : Page) : Page × Option XHR :=
  let watermarkText := s.watermarkText
  let _showTimestamp := s.addShowTimestamp
  match s.addFiles with
  | [] => (showNotification "请选择文件" "error" s, none)
  | file0 :: _ =>
    if !(truthy (trim watermarkText)) then
      (showNotification "请输入水印文本" "error" s, none)
    else
      let formData : List (String × FormValue) :=
        [("file", FormValue.file file0), ("watermark", FormValue.text watermarkText)]
      let s1 := { s with addProgress := { s.addProgress with display := "block" } }
      let s2 := { s1 with addResult := { s1.addResult with display := "none" } }
      let s3 := { s2 with addBtn := { disabled := true, innerHTML := busyLabel } }
      (s3, some { request := { method := "POST", url := "/api/add-watermark", form := formData }
                  responseType := "blob"
                  status := 0
                  responseURL := ""
                  responseBody := "" })

/-- The handler `handleExtractWatermark`, up to and including the call of
`fetch`: the new page and the request that was sent, if any. -/
def handleExtractWatermark (s : Page) : Page × Option Request :=
  let showTimestamp := s.extractShowTimestamp
  match s.extractFiles with
  | [] => (showNotification "请选择文件" "error" s, none)
  | file0 :: _ =>
    let formData : List (String × FormValue) := [("file", FormValue.file file0)]
    let s1 := { s with extractProgress := { s.extractProgress with display := "block" } }
    let s2 := { s1 with extractResult := { s1.extractResult with display := "none" } }
    let s3 := { s2 with extractBtn := { disabled := true, innerHTML := busyLabel } }
    (s3, some { method := "POST"
                url := "/api/extract-watermark?show_timestamp=" ++ boolToString showTimestamp
                form := formData })

/-- A page right after loading, used to run the handlers on concrete input. -/
def samplePage : Page :=
  { addFiles := []
    extractFiles := []
    watermarkText := ""
    addShowTimestamp := false
    extractShowTimestamp := false
    addProgress := { display := "none", fillWidth := "0%", valueText := "0%" }
    extractProgress := { display := "none", fillWidth := "0%", valueText := "0%" }
    addResult := { display := "none", innerHTML := "" }
    extractResult := { display := "none", innerHTML := "" }
    addBtn := { disabled := false, innerHTML := addLabel }
    extractBtn := { disabled := false, innerHTML := extractLabel }
    notifications := []
    darkMode := false
    themeToggleHTML := "<i class=\"fas fa-sun\"></i>"
    storedTheme := none
    prefersDark := false
    previewSize := some "normal"
    previewFontSize := ""
    previewAngle := some "0"
    previewTransform := "" }

/-- A file used in concrete runs. -/
def sampleFile : File := { name := "report.pdf", size := 1024 }

/-! ## Theme -/

/-- Markup of the theme toggle in light mode. -/
def sunIcon : String := "<i class=\"fas fa-sun\"></i>"

/-- Markup of the theme toggle in dark mode. -/
def moonIcon : String := "<i class=\"fas fa-moon\"></i>"

/-- Negation of a value read from local storage: true for `null` and for the
empty string. -/
def storedFalsy : Option String → Bool
  | none => true
  | some v => !(truthy v)

/-- The function `initTheme`. -/
def initTheme (s : Page) : Page :=
  let savedTheme := s.storedTheme
  if savedTheme = some "dark" || (storedFalsy savedTheme && s.prefersDark) then
    { s with darkMode := true, themeToggleHTML := moonIcon }
  else
    { s with darkMode := false, themeToggleHTML := sunIcon }

/-- The function `toggleTheme`. -/
def toggleTheme (s : Page) : Page :=
  if s.darkMode then
    { s with darkMode := false, themeToggleHTML := sunIcon, storedTheme := some "light" }
  else
    { s with darkMode := true, themeToggleHTML := moonIcon, storedTheme := some "dark" }

/-! ## Preview size and angle -/

/-- The function `togglePreviewSize`. A missing `data-size` attribute reads as
`null`, here `none`. -/
def togglePreviewSize (s : Page) : Page :=
  let currentSize := s.previewSize
  if currentSize = some "normal" then
    { s with previewFontSize := "2rem", previewSize := some "large" }
  else if currentSize = some "large" then
    { s with previewFontSize := "2.5rem", previewSize := some "xlarge" }
  else
    { s with previewFontSize := "1.5rem", previewSize := some "normal" }

/-- A number as the angle code meets it: `NaN` or an integer. Integers are
exact here; the script's doubles agree with them below 2^53. -/
inductive Num where
  | nan
  | int (v : Int)
  deriving DecidableEq, Repr

/-- Value of a character as a digit, letters counting from ten. -/
def digitValue (c : Char) : Option Nat :=
  if 48 ≤ c.toNat ∧ c.toNat ≤ 57 then some (c.toNat - 48)
  else if 97 ≤ c.toNat ∧ c.toNat ≤ 122 then some (c.toNat - 87)
  else if 65 ≤ c.toNat ∧ c.toNat ≤ 90 then some (c.toNat - 55)
  else none

/-- Whether a character is a digit of the given radix. -/
def isRadixDigit (radix : Nat) (c : Char) : Bool :=
  match digitValue c with
  | some d => decide (d < radix)
  | none => false

/-- Value of a run of digits in the given radix. -/
def digitsValue (radix : Nat) (cs : List Char) : Nat :=
  cs.foldl (fun acc c => acc * radix + (digitValue c).getD 0) 0

/-- Sign taken off the front of the input of `parseInt`. -/
def splitSign : List Char → Int × List Char
  | '-' :: rest => (-1, rest)
  | '+' :: rest => (1, rest)
  | cs => (1, cs)

/-- Radix chosen by `parseInt` when none is passed: sixteen after a leading
`0x` or `0X`, which is removed, and ten otherwise. -/
def splitRadix : List Char → Nat × List Char
  | '0' :: 'x' :: rest => (16, rest)
  | '0' :: 'X' :: rest => (16, rest)
  | cs => (10, cs)

/-- The global `parseInt` with one argument: leading white space is skipped,
then a sign, then a hexadecimal marker; the longest run of digits is read and
what follows it is ignored; no digit gives `NaN`. -/
def parseInt (str : String) : Num :=
  let afterSpace := trimStart str.data
  let (sign, afterSign) := splitSign afterSpace
  let (radix, afterMark) := splitRadix afterSign
  let z := afterMark.takeWhile (isRadixDigit radix)
  if z.isEmpty then Num.nan else Num.int (sign * (digitsValue radix z : Int))

/-- Reading of an attribute that may be missing: `null` converts to the
string `null`. -/
def attrToString : Option String → String
  | some v => v
  | none => "null"

/-- Sum of a number and an integer constant. -/
def Num.add (x : Num) (k : Int) : Num :=
  match x with
  | Num.nan => Num.nan
  | Num.int v => Num.int (v + k)

/-- Remainder with the sign of the dividend, as the operator `%` gives it. -/
def Num.rem (x : Num) (k : Int) : Num :=
  match x with
  | Num.nan => Num.nan
  | Num.int v => Num.int (Int.tmod v k)

/-- Decimal text of a number. -/
def Num.toString (x : Num) : String :=
  match x with
  | Num.nan => "NaN"
  | Num.int (Int.ofNat n) => Nat.repr n
  | Num.int (Int.negSucc n) => "-" ++ Nat.repr (n + 1)

/-- The function `togglePreviewAngle`. -/
def togglePreviewAngle (s : Page) : Page :=
  let currentAngle := parseInt (attrToString s.previewAngle)
  let newAngle := (currentAngle.add 45).rem 360
  { s with
    previewTransform := "rotate(" ++ newAngle.toString ++ "deg)"
    previewAngle := some newAngle.toString }

/-! ## Supported types -/

/-- UTF-16 code units of a character. -/
def charCodeUnits (c : Char) : List Nat :=
  if c.toNat < 0x10000 then [c.toNat]
  else [0xD800 + (c.toNat - 0x10000) / 0x400, 0xDC00 + (c.toNat - 0x10000) % 0x400]

/-- UTF-16 code units of a string. -/
def codeUnits (s : String) : List Nat := s.data.flatMap charCodeUnits

/-- Order used by `Array.prototype.sort` without a comparator on strings:
lexicographic on UTF-16 code units. -/
def sortLe (a b : String) : Prop := codeUnits a ≤ codeUnits b

instance sortLeDecidable : DecidableRel sortLe :=
  fun a b => inferInstanceAs (Decidable (codeUnits a ≤ codeUnits b))

instance sortLeTotal : IsTotal String sortLe :=
  ⟨fun a b => le_total (codeUnits a) (codeUnits b)⟩

instance sortLeTrans : IsTrans String sortLe :=
  ⟨fun _ _ _ hab hbc => @le_trans (List Nat) _ _ _ _ hab hbc⟩

/-- The method `sort` of an array of strings, called without a comparator.
The order is total and equal keys are equal strings, so every sorting
algorithm gives this list. -/
def sort (types : List String) : List String := List.insertionSort sortLe types

/-- A call of one of the three functions that render the supported types. -/
inductive Call where
  | updateFormatTags (types : List String)
  | updateUploadAreaFormats (types : List String)
  | updateFooterFormats (types : List String)
  deriving DecidableEq, Repr

/-- What came back from `/api/supported-types`. -/
inductive TypesResponse where
  | failed
  | noArray
  | types (list : List String)
  deriving DecidableEq, Repr

/-- The list shown when the request fails. -/
def defaultTypes : List String := ["pdf", "docx", "xlsx", "pptx", "jpg", "png"]

/-- The function `loadSupportedTypes`, once the response is in: the calls it
makes, in order. `failed` is a rejected fetch or a body that is not JSON;
`noArray` is a JSON body whose `types` is missing or not an array. -/
def loadSupportedTypes (r : TypesResponse) : List Call :=
  match r with
  | TypesResponse.types list =>
    let sortedTypes := sort list
    [Call.updateFormatTags sortedTypes,
     Call.updateUploadAreaFormats sortedTypes,
     Call.updateFooterFormats sortedTypes]
  | TypesResponse.noArray => []
  | TypesResponse.failed =>
    [Call.updateFormatTags defaultTypes,
     Call.updateUploadAreaFormats defaultTypes,
     Call.updateFooterFormats defaultTypes]

/-! ## Responses -/

/-- The method `includes` of a string. -/
def includes (s sub : String) : Bool :=
  s.data.tails.any (fun t => sub.data.isPrefixOf t)

/-- A value produced by `JSON.parse`. Numbers are integers here, and an
object lists each of its keys once. -/
inductive Json where
  | null
  | bool (b : Bool)
  | num (n : Int)
  | str (s : String)
  | arr (items : List Json)
  | obj (props : List (String × Json))

/-- Truthiness of a parsed value. -/
def Json.truthy : Json → Bool
  | Json.null => false
  | Json.bool b => b
  | Json.num n => decide (n ≠ 0)
  | Json.str s => WatermarkTool.truthy s
  | Json.arr _ => true
  | Json.obj _ => true

mutual
/-- Conversion of a parsed value to a string, as a template literal does it. -/
def Json.toStr : Json → String
  | Json.null => "null"
  | Json.bool b => boolToString b
  | Json.num n => (Num.int n).toString
  | Json.str s => s
  | Json.arr items => Json.joinItems items
  | Json.obj _ => "[object Object]"
/-- Elements of an array joined with commas. -/
def Json.joinItems : List Json → String
  | [] => ""
  | [x] => Json.itemStr x
  | x :: y :: rest => Json.itemStr x ++ "," ++ Json.joinItems (y :: rest)
/-- Text of one array element: `null` gives the empty string. -/
def Json.itemStr : Json → String
  | Json.null => ""
  | Json.bool b => boolToString b
  | Json.num n => (Num.int n).toString
  | Json.str s => s
  | Json.arr items => Json.joinItems items
  | Json.obj _ => "[object Object]"
end

/-- The expression `response.error`: reading a property of `null` throws;
a value that is not an object has no such property. -/
def Json.errorField : Json → Except String (Option Json)
  | Json.null => Except.error "TypeError"
  | Json.obj props => Except.ok (props.lookup "error")
  | _ => Except.ok none

/-- The getter `xhr.responseText`: it throws unless the response type is the
empty string or `text`. -/
def responseText (xhr : XHR) : Except String String :=
  if xhr.responseType = "" ∨ xhr.responseType = "text" then Except.ok xhr.responseBody
  else Except.error "InvalidStateError"

/-- The function `updateProgress` on a progress area. -/
def updateProgress (percent : Nat) (area : Progress) : Progress :=
  { area with fillWidth := Nat.repr percent ++ "%", valueText := Nat.repr percent ++ "%" }

/-- Markup written into a result panel by `handleFailedRequest`. -/
def errorHTML (message : String) : String :=
  "\n        <div class=\"error-message\">\n" ++
  "            <div class=\"icon\"><i class=\"fas fa-exclamation-circle\"></i></div>\n" ++
  "            <div class=\"message\">" ++ message ++ "</div>\n" ++
  "        </div>\n    "

/-- Markup written into the add panel by `handleSuccessfulAddWatermark`. -/
def addSuccessHTML (url fileName : String) : String :=
  "\n        <div class=\"success-message\">\n" ++
  "            <div class=\"icon\"><i class=\"fas fa-check-circle\"></i></div>\n" ++
  "            <div class=\"message\">水印添加成功！您可以下载带有水印的文件。</div>\n" ++
  "        </div>\n" ++
  "        <a href=\"" ++ url ++ "\" download=\"" ++ fileName ++ "\" class=\"download-btn\">\n" ++
  "            <span class=\"icon\"><i class=\"fas fa-download\"></i></span>\n" ++
  "            <span>下载文件</span>\n" ++
  "        </a>\n    "

/-- The function `handleFailedRequest(message, xhr)`; `none` is a call without
the second argument. -/
def handleFailedRequest (message : String) (xhr : Option XHR) (s : Page) : Page :=
  let useAdd : Bool :=
    match xhr with
    | some x => includes x.responseURL "add-watermark"
    | none => false
  if useAdd then
    { s with addResult := { display := "block", innerHTML := errorHTML message } }
  else
    { s with extractResult := { display := "block", innerHTML := errorHTML message } }

/-- The function `handleSuccessfulAddWatermark`, with the object URL the
browser made for the blob. -/
def handleSuccessfulAddWatermark (url fileName : String) (s : Page) : Page :=
  { s with addResult := { display := "block", innerHTML := addSuccessHTML url fileName } }

/-- Message of a failed add request. -/
def addDefaultMessage : String := "添加水印失败，请重试"

/-- Message of a network error. -/
def networkMessage : String := "网络错误，请检查您的连接"

/-- The body of the `try` block of `xhr.onload`: the page it leaves, or the
exception it throws. -/
def addOnloadTry (parse : String → Option Json) (xhr : XHR) (s : Page) : Except String Page :=
  match responseText xhr with
  | Except.error e => Except.error e
  | Except.ok text =>
    match parse text with
    | none => Except.error "SyntaxError"
    | some response =>
      match response.errorField with
      | Except.error e => Except.error e
      | Except.ok field =>
        let message :=
          match field with
          | some v => if v.truthy then v.toStr else addDefaultMessage
          | none => addDefaultMessage
        Except.ok (handleFailedRequest message (some xhr) s)

/-- The callback `xhr.onload` of the add form. `parse` is `JSON.parse`, `none`
where it throws; `blobUrl` is the object URL made for a successful response. -/
def addOnload (parse : String → Option Json) (blobUrl : String) (xhr : XHR) (s : Page) : Page :=
  let s1 := { s with addBtn := { disabled := false, innerHTML := addLabel } }
  if xhr.status = 200 then
    let s2 := { s1 with addProgress := updateProgress 100 s1.addProgress }
    match s2.addFiles with
    | [] => s2
    | file0 :: _ => handleSuccessfulAddWatermark blobUrl ("watermarked_" ++ file0.name) s2
  else
    match addOnloadTry parse xhr s1 with
    | Except.ok s2 => s2
    | Except.error _ => handleFailedRequest addDefaultMessage (some xhr) s1

/-- The callback `xhr.onerror` of the add form. -/
def addOnerror (xhr : XHR) (s : Page) : Page :=
  let s1 := { s with addBtn := { disabled := false, innerHTML := addLabel } }
  handleFailedRequest networkMessage (some xhr) s1

/-- The XHR after a network error: no status and no response URL. -/
def XHR.networkError (xhr : XHR) : XHR :=
  { xhr with status := 0, responseURL := "", responseBody := "" }

/-- The XHR after a response has arrived. -/
def XHR.respond (xhr : XHR) (status : Nat) (url body : String) : XHR :=
  { xhr with status := status, responseURL := url, responseBody := body }

/-- The `catch` and `finally` callbacks of the extract form, run with the
message of the error that rejected the chain. -/
def extractFailed (errorMessage : String) (s : Page) : Page :=
  let s1 := handleFailedRequest
    (if truthy errorMessage then errorMessage else "提取水印失败，请重试") none s
  { s1 with extractBtn := { disabled := false, innerHTML := extractLabel } }

/-- Icon that shows a mode: the moon in dark mode, the sun in light mode. -/
def iconFor (dark : Bool) : String := if dark then moonIcon else sunIcon

/-- Data size and font size of the preview, read together. -/
def previewState (s : Page) : Option String × String := (s.previewSize, s.previewFontSize)

/-- The three states `togglePreviewSize` cycles through. -/
def namedSizes : List (Option String × String) :=
  [(some "normal", "1.5rem"), (some "large", "2rem"), (some "xlarge", "2.5rem")]

/-- A page with a file and a text in the add form, ready to submit. -/
def readyPage : Page :=
  { samplePage with addFiles := [sampleFile], watermarkText := "secret" }

/-- The XHR that `handleAddWatermark` sends from `readyPage`. -/
def readyXhr : XHR :=
  { request := { method := "POST", url := "/api/add-watermark",
                 form := [("file", FormValue.file sampleFile),
                          ("watermark", FormValue.text "secret")] }
    responseType := "blob"
    status := 0
    responseURL := ""
    responseBody := "" }

/-- An error body a server may send with a status other than 200. -/
def serverErrorBody : String := "\x7b\"error\":\"不支持的文件类型\"\x7d"

/-- What `JSON.parse` makes of `serverErrorBody`. -/
def serverErrorJson : Json := Json.obj [("error", Json.str "不支持的文件类型")]

/-! ## File type icons -/

/-- A tag appended to the `supportedTypes` container by `updateFormatTags`:
the span, its text, and the icon put in front of the text. -/
structure FormatTag where
  className : String
  textContent : String
  iconClass : String
  iconMarginRight : String
  deriving DecidableEq, Repr

/-- The class name given to the icon of one type in `updateFormatTags`: the
`switch` on `type.toLowerCase()`. `lower` is the method `toLowerCase`. -/
def formatTagIconClass (lower : String → String) (type : String) : String :=
  let key := lower type
  "fas " ++
    (if key = "pdf" then "fa-file-pdf"
     else if key = "docx" then "fa-file-word"
     else if key = "xlsx" then "fa-file-excel"
     else if key = "pptx" then "fa-file-powerpoint"
     else if key = "jpg" ∨ key = "jpeg" then "fa-file-image"
     else if key = "png" then "fa-file-image"
     else if key = "odt" then "fa-file-alt"
     else if key = "rtf" then "fa-file-alt"
     else "fa-file")

/-- The function `updateFormatTags`: the children of the container after the
call, one tag per type. `lower` and `upper` are the methods `toLowerCase` and
`toUpperCase`. -/
def updateFormatTags (lower upper : String → String) (types : List String) : List FormatTag :=
  types.map fun type =>
    { className := "format-tag"
      textContent := upper type
      iconClass := formatTagIconClass lower type
      iconMarginRight := "6px" }

/-- The method `split` with a one-character separator, on the characters of
the string: the pieces between the separators, at least one. -/
def split (sep : Char) : List Char → List (List Char)
  | [] => [[]]
  | c :: cs =>
    if c = sep then [] :: split sep cs
    else
      match split sep cs with
      | piece :: pieces => (c :: piece) :: pieces
      | [] => [[c]]

/-- The expression `fileName.split(".").pop()`: the last piece. -/
def splitPop (fileName : String) : String :=
  ⟨((split '.' fileName.data).getLast?).getD []⟩

/-- The class name given to the file icon in `updateFileName`: the `switch` on
the lower-cased extension. -/
def fileIconClass (lower : String → String) (fileName : String) : String :=
  let extension := lower (splitPop fileName)
  "fas " ++
    (if extension = "pdf" then "fa-file-pdf"
     else if extension = "docx" then "fa-file-word"
     else if extension = "xlsx" then "fa-file-excel"
     else if extension = "pptx" then "fa-file-powerpoint"
     else if extension = "odt" then "fa-file-alt"
     else if extension = "rtf" then "fa-file-alt"
     else if extension = "jpg" ∨ extension = "jpeg" then "fa-file-image"
     else if extension = "png" then "fa-file-image"
     else "fa-file")

/-- A file input with the two containers `updateFileName` works on: the one
shown when a file is selected, with its file name and icon, and the one shown
when none is. -/
structure FileBox where
  files : List File
  fileNameText : String
  iconClass : String
  selectedDisplay : String
  emptyDisplay : String
  deriving DecidableEq, Repr

/-- The function `resetFileInput`. -/
def resetFileInput (b : FileBox) : FileBox :=
  { b with files := [], selectedDisplay := "none", emptyDisplay := "block" }

/-- The function `updateFileName`. -/
def updateFileName (lower : String → String) (b : FileBox) : FileBox :=
  match b.files with
  | file0 :: _ =>
    let fileName := file0.name
    { b with
      fileNameText := fileName
      iconClass := fileIconClass lower fileName
      selectedDisplay := "block"
      emptyDisplay := "none" }
  | [] => resetFileInput b

/-- The table of the icon classes in words: the key is the lower-cased type or
extension. -/
def tableIcon (key : String) : String :=
  if key = "pdf" then "fa-file-pdf"
  else if key = "docx" then "fa-file-word"
  else if key = "xlsx" then "fa-file-excel"
  else if key = "pptx" then "fa-file-powerpoint"
  else if key = "jpg" ∨ key = "jpeg" ∨ key = "png" then "fa-file-image"
  else if key = "odt" ∨ key = "rtf" then "fa-file-alt"
  else "fa-file"

/-- Lower case of one character: the letters A to Z and the Kelvin sign
U+212A, which lowers to k. Every other character is kept. -/
def toLowerCaseChar : Char → Char
  | 'A' => 'a' | 'B' => 'b' | 'C' => 'c' | 'D' => 'd' | 'E' => 'e' | 'F' => 'f' | 'G' => 'g'
  | 'H' => 'h' | 'I' => 'i' | 'J' => 'j' | 'K' => 'k' | 'L' => 'l' | 'M' => 'm' | 'N' => 'n'
  | 'O' => 'o' | 'P' => 'p' | 'Q' => 'q' | 'R' => 'r' | 'S' => 's' | 'T' => 't' | 'U' => 'u'
  | 'V' => 'v' | 'W' => 'w' | 'X' => 'x' | 'Y' => 'y' | 'Z' => 'z'
  | '\u212A' => 'k'
  | c => c

/-- Upper case of one character: the letters a to z and the long s U+017F,
which raises to S. Every other character is kept. -/
def toUpperCaseChar : Char → Char
  | 'a' => 'A' | 'b' => 'B' | 'c' => 'C' | 'd' => 'D' | 'e' => 'E' | 'f' => 'F' | 'g' => 'G'
  | 'h' => 'H' | 'i' => 'I' | 'j' => 'J' | 'k' => 'K' | 'l' => 'L' | 'm' => 'M' | 'n' => 'N'
  | 'o' => 'O' | 'p' => 'P' | 'q' => 'Q' | 'r' => 'R' | 's' => 'S' | 't' => 'T' | 'u' => 'U'
  | 'v' => 'V' | 'w' => 'W' | 'x' => 'X' | 'y' => 'Y' | 'z' => 'Z'
  | '\u017F' => 'S'
  | c => c

/-- The method `toLowerCase` on strings made of ASCII characters, the long s
U+017F and the Kelvin sign U+212A, where it is this map. Other cased letters
are kept by this function and lowered by the method. Used to run the icon
choosers on concrete names. -/
def toLowerCase (s : String) : String := ⟨s.data.map toLowerCaseChar⟩

/-- The method `toUpperCase` on strings made of ASCII characters, the long s
U+017F and the Kelvin sign U+212A, where it is this map. -/
def toUpperCase (s : String) : String := ⟨s.data.map toUpperCaseChar⟩

/-- Two characters that are equal or are the two cases of one ASCII letter. -/
def asciiCaseSwap (c d : Char) : Prop :=
  c = d ∨
  (65 ≤ c.toNat ∧ c.toNat ≤ 90 ∧ d.toNat = c.toNat + 32) ∨
  (65 ≤ d.toNat ∧ d.toNat ≤ 90 ∧ c.toNat = d.toNat + 32)

/-- Two strings that differ at most in the case of ASCII letters. -/
def AsciiCaseVariant (a b : String) : Prop := List.Forall₂ asciiCaseSwap a.data b.data

/-- An empty file box holding one file of the given name. -/
def boxWith (fileName : String) : FileBox :=
  { files := [{ name := fileName, size := 1024 }]
    fileNameText := ""
    iconClass := "fas fa-file"
    selectedDisplay := "none"
    emptyDisplay := "block" }

set_option maxRecDepth 100000

/-! ## Lemmas on trimming -/

theorem trimStart_eq_nil_iff (cs : List Char) :
    trimStart cs = [] ↔ ∀ c ∈ cs, isWhiteSpace c = true := by
  unfold trimStart
  simp [List.dropWhile_eq_nil_iff]

theorem trimStart_head_not (cs : List Char) (c : Char) (rest : List Char)
    (h : trimStart cs = c :: rest) : isWhiteSpace c = false := by
  have hne : List.dropWhile isWhiteSpace cs ≠ [] := by
    intro h0
    unfold trimStart at h
    rw [h0] at h
    cases h
  have hd := List.head_dropWhile_not isWhiteSpace cs hne
  unfold trimStart at h
  simp only [h, List.head_cons] at hd
  exact hd

theorem trim_data_eq_nil_iff (s : String) :
    (trim s).data = [] ↔ ∀ c ∈ s.data, isWhiteSpace c = true := by
  unfold trim
  simp only [List.reverse_eq_nil_iff]
  rw [trimStart_eq_nil_iff, ← trimStart_eq_nil_iff s.data]
  constructor
  · intro h
    cases hts : trimStart s.data with
    | nil => rfl
    | cons c rest =>
      have hc := trimStart_head_not s.data c rest hts
      have hw := h c (by rw [hts]; simp)
      rw [hc] at hw
      cases hw
  · intro h c hc
    rw [h] at hc
    simp at hc

/-- A trimmed string is truthy exactly when the string holds a character that
is not white space. -/
theorem truthy_trim_iff (s : String) :
    truthy (trim s) = true ↔ ∃ c ∈ s.data, isWhiteSpace c = false := by
  unfold truthy
  rw [Bool.not_eq_true', List.isEmpty_eq_false, Ne, trim_data_eq_nil_iff]
  push_neg
  simp

/-! ## Submitting the forms -/

/-- C1: on both forms, submitting while the file input holds no file is one
call of `showNotification` with the text "请选择文件" and the type "error"; no
request is sent, and the progress area, the result panel and the submit button
of the form stay as they were. -/
theorem submit_without_file (s t : Page) (hs : s.addFiles = []) (ht : t.extractFiles = []) :
    (handleAddWatermark s = (showNotification "请选择文件" "error" s, none) ∧
      (handleAddWatermark s).2 = none ∧
      (handleAddWatermark s).1.addProgress = s.addProgress ∧
      (handleAddWatermark s).1.addResult = s.addResult ∧
      (handleAddWatermark s).1.addBtn = s.addBtn) ∧
    (handleExtractWatermark t = (showNotification "请选择文件" "error" t, none) ∧
      (handleExtractWatermark t).2 = none ∧
      (handleExtractWatermark t).1.extractProgress = t.extractProgress ∧
      (handleExtractWatermark t).1.extractResult = t.extractResult ∧
      (handleExtractWatermark t).1.extractBtn = t.extractBtn) := by
  have ha : handleAddWatermark s = (showNotification "请选择文件" "error" s, none) := by
    simp only [handleAddWatermark, hs]
  have he : handleExtractWatermark t = (showNotification "请选择文件" "error" t, none) := by
    simp only [handleExtractWatermark, ht]
  rw [ha, he]
  simp [showNotification]

/-- Running C1 on the freshly loaded page, which has no file in either input. -/
theorem submit_without_file_witness :
    samplePage.addFiles = [] ∧ samplePage.extractFiles = [] ∧
    (handleAddWatermark samplePage).2 = none ∧
    (handleExtractWatermark samplePage).2 = none ∧
    (handleAddWatermark samplePage).1.addBtn = samplePage.addBtn :=
  ⟨rfl, rfl, (submit_without_file samplePage samplePage rfl rfl).1.2.1,
    (submit_without_file samplePage samplePage rfl rfl).2.2.1,
    (submit_without_file samplePage samplePage rfl rfl).1.2.2.2.2⟩

/-- C2: `handleAddWatermark` sends a request exactly when a file is selected
and the watermark text holds a character that is not white space; with a file
selected and a text that is empty or all white space it shows the notification
"请输入水印文本" of type "error" and sends nothing. -/
theorem add_sends_iff (s : Page) :
    ((handleAddWatermark s).2.isSome = true ↔
      (s.addFiles ≠ [] ∧ ∃ c ∈ s.watermarkText.data, isWhiteSpace c = false)) ∧
    (s.addFiles ≠ [] → (∀ c ∈ s.watermarkText.data, isWhiteSpace c = true) →
      handleAddWatermark s = (showNotification "请输入水印文本" "error" s, none)) := by
  have key := truthy_trim_iff s.watermarkText
  cases hf : s.addFiles with
  | nil => simp [handleAddWatermark, hf]
  | cons file0 rest =>
    by_cases ht : truthy (trim s.watermarkText) = true
    · have hex := key.mp ht
      refine ⟨?_, ?_⟩
      · simp only [handleAddWatermark, hf, ht]
        simp
        exact hex
      · intro _ hall
        obtain ⟨c, hc, hw⟩ := hex
        rw [hall c hc] at hw
        cases hw
    · have hnex : ¬ ∃ c ∈ s.watermarkText.data, isWhiteSpace c = false := fun h => ht (key.mpr h)
      have hfalse : truthy (trim s.watermarkText) = false := by simpa using ht
      refine ⟨?_, ?_⟩
      · simp only [handleAddWatermark, hf, hfalse]
        simp
        intro c hc
        by_contra hw
        exact hnex ⟨c, hc, by simpa using hw⟩
      · intro _ _
        simp only [handleAddWatermark, hf, hfalse]
        simp

/-- Running C2 on a page with a file and a text of two blanks. -/
theorem add_sends_iff_witness :
    ({ samplePage with addFiles := [sampleFile], watermarkText := "  " } : Page).addFiles ≠ [] ∧
    (∀ c ∈ ("  " : String).data, isWhiteSpace c = true) ∧
    handleAddWatermark { samplePage with addFiles := [sampleFile], watermarkText := "  " } =
      (showNotification "请输入水印文本" "error"
        { samplePage with addFiles := [sampleFile], watermarkText := "  " }, none) :=
  ⟨by decide, by decide,
    (add_sends_iff { samplePage with addFiles := [sampleFile], watermarkText := "  " }).2
      (by decide) (by decide)⟩

/-- C3: a submission that passes both checks builds a POST to
"/api/add-watermark" whose form has exactly the fields "file", the first
selected file, and "watermark", the text as typed, in this order; the state of
the timestamp checkbox of the add form does not change what is sent. -/
theorem add_request_shape (s : Page) (file0 : File) (rest : List File) (b : Bool)
    (hf : s.addFiles = file0 :: rest) (ht : truthy (trim s.watermarkText) = true) :
    (handleAddWatermark s).2.map XHR.request =
      some { method := "POST", url := "/api/add-watermark",
             form := [("file", FormValue.file file0),
                      ("watermark", FormValue.text s.watermarkText)] } ∧
    (handleAddWatermark { s with addShowTimestamp := b }).2 = (handleAddWatermark s).2 := by
  simp [handleAddWatermark, hf, ht]

/-- Running C3 on a page with a file and a text with blanks around it. -/
theorem add_request_shape_witness :
    ({ samplePage with addFiles := [sampleFile], watermarkText := " secret " } : Page).addFiles =
      [sampleFile] ∧
    truthy (trim " secret ") = true ∧
    (handleAddWatermark
      { samplePage with addFiles := [sampleFile], watermarkText := " secret " }).2.map
        XHR.request =
      some { method := "POST", url := "/api/add-watermark",
             form := [("file", FormValue.file sampleFile),
                      ("watermark", FormValue.text " secret ")] } :=
  ⟨rfl, by decide,
    (add_request_shape { samplePage with addFiles := [sampleFile], watermarkText := " secret " }
      sampleFile [] true rfl (by decide)).1⟩

/-- C4: with a file selected, `handleExtractWatermark` sends a POST to
"/api/extract-watermark?show_timestamp=" followed by "true" when the timestamp
checkbox of the extract form is checked and by "false" when it is not; the
form has the one field "file", the first selected file. -/
theorem extract_request_shape (s : Page) (file0 : File) (rest : List File)
    (hf : s.extractFiles = file0 :: rest) :
    (handleExtractWatermark s).2 =
      some { method := "POST",
             url := "/api/extract-watermark?show_timestamp=" ++
               (if s.extractShowTimestamp = true then "true" else "false"),
             form := [("file", FormValue.file file0)] } := by
  simp [handleExtractWatermark, hf, boolToString]

/-- Running C4 on a page with a file and the checkbox checked. -/
theorem extract_request_shape_witness :
    ({ samplePage with extractFiles := [sampleFile], extractShowTimestamp := true } :
      Page).extractFiles = [sampleFile] ∧
    (handleExtractWatermark
      { samplePage with extractFiles := [sampleFile], extractShowTimestamp := true }).2 =
      some { method := "POST", url := "/api/extract-watermark?show_timestamp=true",
             form := [("file", FormValue.file sampleFile)] } :=
  ⟨rfl,
    extract_request_shape
      { samplePage with extractFiles := [sampleFile], extractShowTimestamp := true }
      sampleFile [] rfl⟩

/-! ## Failed requests -/

/-- After a network error the XHR has an empty response URL, so
`handleFailedRequest` writes into the extract panel whatever the page. -/
theorem onerror_writes_extract_panel (s : Page) (xhr : XHR) :
    (addOnerror xhr.networkError s).addResult = s.addResult ∧
    (addOnerror xhr.networkError s).extractResult =
      { display := "block", innerHTML := errorHTML networkMessage } := by
  have hinc : includes "" "add-watermark" = false := by decide
  simp [addOnerror, handleFailedRequest, XHR.networkError, hinc]

/-- A failed extract request is shown in the extract panel; the add panel
stays as it was. -/
theorem extract_failure_panel (message : String) (s : Page) :
    (extractFailed message s).addResult = s.addResult ∧
    (extractFailed message s).extractResult.display = "block" ∧
    (extractFailed message s).extractBtn = { disabled := false, innerHTML := extractLabel } := by
  simp [extractFailed, handleFailedRequest]

/-- C5, at a network error of the add request: the add form is submitted from
`readyPage`, the request fails on the network, and `xhr.onerror` runs. The
error text lands in the extract panel, which becomes visible; the add panel
stays hidden and empty. -/
theorem add_network_error_lands_in_extract_panel :
    handleAddWatermark readyPage =
      ({ readyPage with
          addProgress := { readyPage.addProgress with display := "block" }
          addBtn := { disabled := true, innerHTML := busyLabel } }, some readyXhr) ∧
    readyXhr.networkError.responseURL = "" ∧
    (addOnerror readyXhr.networkError (handleAddWatermark readyPage).1).addResult =
      { display := "none", innerHTML := "" } ∧
    (addOnerror readyXhr.networkError (handleAddWatermark readyPage).1).extractResult =
      { display := "block", innerHTML := errorHTML "网络错误，请检查您的连接" } := by
  refine ⟨by decide, rfl, ?_, ?_⟩
  · rw [(onerror_writes_extract_panel _ _).1]
    decide
  · rw [(onerror_writes_extract_panel _ _).2]
    rfl

/-- With the response type `blob` that `handleAddWatermark` sets, reading
`responseText` throws, so every response with a status other than 200 ends in
the `catch` branch with the default message. -/
theorem onload_blob_default (parse : String → Option Json) (blobUrl : String)
    (xhr : XHR) (s : Page) (hb : xhr.responseType = "blob") (hs : xhr.status ≠ 200) :
    addOnload parse blobUrl xhr s =
      handleFailedRequest addDefaultMessage (some xhr)
        { s with addBtn := { disabled := false, innerHTML := addLabel } } := by
  have hne : ¬ (("blob" : String) = "" ∨ ("blob" : String) = "text") := by decide
  simp [addOnload, addOnloadTry, responseText, hb, hs, hne]

/-- Both callbacks of the add request put the button back: enabled, with the
label of the add form. -/
theorem add_button_restored (parse : String → Option Json) (blobUrl : String)
    (xhr : XHR) (s : Page) (hs : xhr.status ≠ 200) :
    (addOnload parse blobUrl xhr s).addBtn = { disabled := false, innerHTML := addLabel } ∧
    (addOnerror xhr s).addBtn = { disabled := false, innerHTML := addLabel } := by
  constructor
  · simp only [addOnload, hs, if_false]
    cases hto : addOnloadTry parse xhr
        { s with addBtn := { disabled := false, innerHTML := addLabel } } with
    | error e => simp only [handleFailedRequest]; split <;> rfl
    | ok s2 =>
      simp only
      unfold addOnloadTry at hto
      split at hto
      · cases hto
      · split at hto
        · cases hto
        · split at hto
          · cases hto
          · injection hto with hto
            subst hto
            simp only [handleFailedRequest]
            split <;> rfl
  · simp only [addOnerror, handleFailedRequest]
    split <;> rfl

/-- Had the response type been left at its default, the same response would
show the message of the server: the `try` branch of the model is live. -/
theorem onload_text_shows_server_message :
    (addOnload (fun _ => some serverErrorJson) ""
      { readyXhr with responseType := "", status := 400,
                      responseURL := "http://localhost:5000/api/add-watermark",
                      responseBody := serverErrorBody }
      (handleAddWatermark readyPage).1).addResult =
      { display := "block", innerHTML := errorHTML "不支持的文件类型" } := by
  decide

/-- C6, at a server-reported error: the add form is submitted from
`readyPage` and the server answers 400 with the JSON body
`serverErrorBody`, whose `error` field is a non-empty string. Whatever
`JSON.parse` would return, the add panel shows the default message
"添加水印失败，请重试" and not the message of the server. -/
theorem add_server_error_shows_default (parse : String → Option Json) (blobUrl : String) :
    (handleAddWatermark readyPage).2 = some readyXhr ∧
    (addOnload parse blobUrl
      (readyXhr.respond 400 "http://localhost:5000/api/add-watermark" serverErrorBody)
      (handleAddWatermark readyPage).1).addResult =
      { display := "block", innerHTML := errorHTML "添加水印失败，请重试" } ∧
    errorHTML "添加水印失败，请重试" ≠ errorHTML "不支持的文件类型" := by
  refine ⟨by decide, ?_, by decide⟩
  rw [onload_blob_default parse blobUrl _ _ rfl (by decide)]
  decide

/-! ## Theme -/

/-- The toggle icon is written by `initTheme` and `toggleTheme` only, each
time together with the body class; so after `initTheme` and any number of
calls of `toggleTheme` the icon is the icon of the mode. -/
theorem theme_icon_invariant (s0 : Page) (k : Nat) :
    (toggleTheme^[k] (initTheme s0)).themeToggleHTML =
      iconFor (toggleTheme^[k] (initTheme s0)).darkMode := by
  induction k with
  | zero =>
    simp only [Function.iterate_zero, id_eq, initTheme]
    split_ifs <;> simp [iconFor]
  | succ k _ =>
    rw [Function.iterate_succ_apply']
    cases hm : (toggleTheme^[k] (initTheme s0)).darkMode <;> simp [toggleTheme, hm, iconFor]

/-- Two calls of `toggleTheme` return the body class, and they return the
toggle icon when it was the icon of the mode. -/
theorem toggleTheme_twice (s : Page) :
    (toggleTheme (toggleTheme s)).darkMode = s.darkMode ∧
    (s.themeToggleHTML = iconFor s.darkMode →
      (toggleTheme (toggleTheme s)).themeToggleHTML = s.themeToggleHTML) := by
  constructor
  · cases hm : s.darkMode <;> simp [toggleTheme, hm]
  · intro hi
    cases hm : s.darkMode <;> simp [toggleTheme, hm, hi, iconFor]

/-- C7: after `toggleTheme` the stored theme is "dark" exactly when the body
is in dark mode and "light" otherwise; a following `initTheme` leaves the
whole page, mode and icon included, as `toggleTheme` set it, whatever the
system preference; and two calls of `toggleTheme` return the body class and
the toggle icon. The state is the body class, the stored value and the system
preference, each taken freely; the toggle icon goes with the body class, as
the script keeps it: `initTheme` runs before the click handler is attached,
and it and `toggleTheme` are the only writers of the icon. The last clause is
stated for such a state built on any page `s`, for every page `initTheme` and
`k` calls of `toggleTheme` lead to, and for every page whose icon is the icon
of its mode. -/
theorem theme_round_trip (s s0 : Page) (dark p : Bool) (stored : Option String) (k : Nat) :
    ((toggleTheme s).storedTheme =
      (if (toggleTheme s).darkMode then some "dark" else some "light")) ∧
    initTheme { toggleTheme s with prefersDark := p } = { toggleTheme s with prefersDark := p } ∧
    (toggleTheme (toggleTheme
        { s with darkMode := dark, themeToggleHTML := iconFor dark,
                 storedTheme := stored, prefersDark := p })).darkMode = dark ∧
    (toggleTheme (toggleTheme
        { s with darkMode := dark, themeToggleHTML := iconFor dark,
                 storedTheme := stored, prefersDark := p })).themeToggleHTML = iconFor dark ∧
    (toggleTheme (toggleTheme (toggleTheme^[k] (initTheme s0)))).darkMode =
      (toggleTheme^[k] (initTheme s0)).darkMode ∧
    (toggleTheme (toggleTheme (toggleTheme^[k] (initTheme s0)))).themeToggleHTML =
      (toggleTheme^[k] (initTheme s0)).themeToggleHTML ∧
    (toggleTheme (toggleTheme s)).darkMode = s.darkMode ∧
    (s.themeToggleHTML = iconFor s.darkMode →
      (toggleTheme (toggleTheme s)).themeToggleHTML = s.themeToggleHTML) := by
  have hd : storedFalsy (some "dark") = false := by decide
  have hl : storedFalsy (some "light") = false := by decide
  have hne : ¬ (("light" : String) = "dark") := by decide
  refine ⟨?_, ?_, ?_, ?_, (toggleTheme_twice _).1,
    (toggleTheme_twice _).2 (theme_icon_invariant s0 k), (toggleTheme_twice s).1,
    (toggleTheme_twice s).2⟩
  · cases hm : s.darkMode <;> simp [toggleTheme, hm]
  · cases hm : s.darkMode <;> simp [toggleTheme, initTheme, hm, hd, hl, hne]
  · cases dark <;> simp [toggleTheme]
  · cases dark <;> simp [toggleTheme, iconFor]

/-- Running C7 on the freshly loaded page, whose toggle shows the sun in light
mode. -/
theorem theme_round_trip_witness :
    samplePage.themeToggleHTML = iconFor samplePage.darkMode ∧
    (toggleTheme samplePage).storedTheme = some "dark" ∧
    (toggleTheme (toggleTheme samplePage)).darkMode = samplePage.darkMode ∧
    (toggleTheme (toggleTheme samplePage)).themeToggleHTML = samplePage.themeToggleHTML :=
  ⟨by decide, (theme_round_trip samplePage samplePage false false none 0).1,
    (theme_round_trip samplePage samplePage false false none 0).2.2.2.2.2.2.1,
    (theme_round_trip samplePage samplePage false false none 0).2.2.2.2.2.2.2 (by decide)⟩

/-! ## Supported types -/

/-- The list handed on by `loadSupportedTypes` is a permutation of the list of
the server, in ascending order of code units, and the three renderers get the
same list. -/
theorem loadSupportedTypes_perm (list : List String) :
    (sort list).Perm list ∧
    (sort list).Sorted sortLe ∧
    loadSupportedTypes (TypesResponse.types list) =
      [Call.updateFormatTags (sort list), Call.updateUploadAreaFormats (sort list),
       Call.updateFooterFormats (sort list)] :=
  ⟨List.perm_insertionSort sortLe list, List.sorted_insertionSort sortLe list, rfl⟩

/-- C8, at the list "docx", "PDF": `loadSupportedTypes` hands the three
renderers the list "PDF", "docx". The sort compares code units, where every
capital letter comes before every small one, so "PDF" comes before "docx". -/
theorem supported_types_upper_case_first :
    loadSupportedTypes (TypesResponse.types ["docx", "PDF"]) =
      [Call.updateFormatTags ["PDF", "docx"],
       Call.updateUploadAreaFormats ["PDF", "docx"],
       Call.updateFooterFormats ["PDF", "docx"]] := by
  decide

/-! ## Preview size -/

/-- C9: `togglePreviewSize` goes from "normal" to "large" with "2rem", from
"large" to "xlarge" with "2.5rem", and from any other or missing value to
"normal" with "1.5rem"; so one call from any page ends in one of the three
named states, and from each of the three named states, so also from the state
after one call, three calls come back to the same data size and font size. -/
theorem preview_size_cycle (s : Page) :
    (s.previewSize = some "normal" →
      previewState (togglePreviewSize s) = (some "large", "2rem")) ∧
    (s.previewSize = some "large" →
      previewState (togglePreviewSize s) = (some "xlarge", "2.5rem")) ∧
    (s.previewSize ≠ some "normal" → s.previewSize ≠ some "large" →
      previewState (togglePreviewSize s) = (some "normal", "1.5rem")) ∧
    previewState (togglePreviewSize s) ∈ namedSizes ∧
    (previewState s ∈ namedSizes →
      previewState (togglePreviewSize (togglePreviewSize (togglePreviewSize s))) =
        previewState s) ∧
    previewState (togglePreviewSize (togglePreviewSize (togglePreviewSize
      (togglePreviewSize s)))) = previewState (togglePreviewSize s) := by
  have h1 : ¬ (("large" : String) = "normal") := by decide
  have h2 : ¬ (("xlarge" : String) = "normal") := by decide
  have h3 : ¬ (("xlarge" : String) = "large") := by decide
  have h4 : ¬ (("normal" : String) = "large") := by decide
  refine ⟨?_, ?_, ?_, ?_, ?_, ?_⟩
  · intro h
    simp [togglePreviewSize, previewState, h]
  · intro h
    simp [togglePreviewSize, previewState, h, h1]
  · intro hn hl
    simp [togglePreviewSize, previewState, hn, hl]
  · simp only [togglePreviewSize]
    split_ifs <;> simp [previewState, namedSizes]
  · intro hmem
    simp only [namedSizes, previewState, List.mem_cons, List.mem_singleton, Prod.mk.injEq,
      List.mem_nil_iff, or_false] at hmem
    rcases hmem with ⟨hs, hf⟩ | ⟨hs, hf⟩ | ⟨hs, hf⟩ <;>
      simp [togglePreviewSize, previewState, hs, hf, h1, h2, h3, h4]
  · by_cases hn : s.previewSize = some "normal"
    · simp [togglePreviewSize, previewState, hn, h1, h2, h3, h4]
    · by_cases hl : s.previewSize = some "large"
      · simp [togglePreviewSize, previewState, hl, h1, h2, h3, h4]
      · simp [togglePreviewSize, previewState, hn, hl, h1, h2, h3, h4]

/-- Running C9 on the freshly loaded page once its size is "large". -/
theorem preview_size_cycle_witness :
    previewState { samplePage with previewSize := some "large", previewFontSize := "2rem" } ∈
      namedSizes ∧
    previewState (togglePreviewSize (togglePreviewSize (togglePreviewSize
      { samplePage with previewSize := some "large", previewFontSize := "2rem" }))) =
      (some "large", "2rem") :=
  ⟨by decide,
    (preview_size_cycle
      { samplePage with previewSize := some "large", previewFontSize := "2rem" }).2.2.2.2.1
      (by decide)⟩

/-! ## Preview angle -/

/-- The decimal text of a number below 360 parses back to that number. -/
theorem parseInt_repr_small : ∀ n < 360, parseInt (Nat.repr n) = Num.int (n : Int) := by
  decide

/-- One call of `togglePreviewAngle` from an angle that parses to `a`. -/
theorem togglePreviewAngle_step (s : Page) (a : Nat)
    (hp : parseInt (attrToString s.previewAngle) = Num.int (a : Int)) :
    (togglePreviewAngle s).previewAngle = some (Nat.repr ((a + 45) % 360)) ∧
    (togglePreviewAngle s).previewTransform =
      "rotate(" ++ Nat.repr ((a + 45) % 360) ++ "deg)" := by
  have hnew : ((Num.int (a : Int)).add 45).rem 360 = Num.int (((a + 45) % 360 : Nat) : Int) := by
    simp only [Num.add, Num.rem]
    congr 1
  have hstr : (Num.int (((a + 45) % 360 : Nat) : Int)).toString = Nat.repr ((a + 45) % 360) := rfl
  simp only [togglePreviewAngle, hp, hnew, hstr]
  exact ⟨trivial, trivial⟩

/-- After `k` calls the angle attribute parses to `a + 45 * k` modulo 360. -/
theorem togglePreviewAngle_iterate (k : Nat) (s : Page) (a : Nat) (ha : a < 360)
    (hp : parseInt (attrToString s.previewAngle) = Num.int (a : Int)) :
    parseInt (attrToString (togglePreviewAngle^[k] s).previewAngle) =
      Num.int (((a + 45 * k) % 360 : Nat) : Int) ∧
    (0 < k → (togglePreviewAngle^[k] s).previewAngle = some (Nat.repr ((a + 45 * k) % 360))) := by
  induction k with
  | zero =>
    refine ⟨?_, fun h => absurd h (Nat.lt_irrefl 0)⟩
    simp only [Function.iterate_zero, id_eq, Nat.mul_zero, Nat.add_zero, Nat.mod_eq_of_lt ha]
    exact hp
  | succ k ih =>
    have hstep := togglePreviewAngle_step (togglePreviewAngle^[k] s) ((a + 45 * k) % 360) ih.1
    have hval : ((a + 45 * k) % 360 + 45) % 360 = (a + 45 * (k + 1)) % 360 := by omega
    rw [hval] at hstep
    rw [Function.iterate_succ_apply']
    refine ⟨?_, fun _ => hstep.1⟩
    rw [hstep.1]
    exact parseInt_repr_small _ (Nat.mod_lt _ (by decide))

/-- C10: when the angle attribute parses to an integer `a` with
`0 ≤ a < 360`, `togglePreviewAngle` sets the attribute to the decimal text of
`(a + 45) mod 360` and the transform to "rotate(" that text "deg)"; the new
value is again below 360 and is what the new attribute parses to; a multiple
of 45 stays a multiple of 45; and after eight calls the attribute is the
decimal text of `a`. -/
theorem preview_angle_cycle (s : Page) (a : Nat)
    (hp : parseInt (attrToString s.previewAngle) = Num.int (a : Int)) (ha : a < 360) :
    (togglePreviewAngle s).previewAngle = some (Nat.repr ((a + 45) % 360)) ∧
    (togglePreviewAngle s).previewTransform =
      "rotate(" ++ Nat.repr ((a + 45) % 360) ++ "deg)" ∧
    (a + 45) % 360 < 360 ∧
    parseInt (attrToString (togglePreviewAngle s).previewAngle) =
      Num.int (((a + 45) % 360 : Nat) : Int) ∧
    (45 ∣ a → 45 ∣ (a + 45) % 360) ∧
    (togglePreviewAngle^[8] s).previewAngle = some (Nat.repr a) ∧
    parseInt (attrToString (togglePreviewAngle^[8] s).previewAngle) = Num.int (a : Int) := by
  have hstep := togglePreviewAngle_step s a hp
  have hlt : (a + 45) % 360 < 360 := Nat.mod_lt _ (by decide)
  have h8 := togglePreviewAngle_iterate 8 s a ha hp
  have hback : (a + 45 * 8) % 360 = a := by omega
  rw [hback] at h8
  refine ⟨hstep.1, hstep.2, hlt, ?_, ?_, h8.2 (by decide), h8.1⟩
  · rw [hstep.1]
    exact parseInt_repr_small _ hlt
  · intro hdiv
    omega

/-- Running C10 on a page whose angle attribute is "315": one call gives "0",
eight calls give "315" again. -/
theorem preview_angle_cycle_witness :
    parseInt (attrToString (some "315")) = Num.int ((315 : Nat) : Int) ∧ 315 < 360 ∧
    (togglePreviewAngle { samplePage with previewAngle := some "315" }).previewAngle =
      some "0" ∧
    (togglePreviewAngle { samplePage with previewAngle := some "315" }).previewTransform =
      "rotate(0deg)" ∧
    (togglePreviewAngle^[8] { samplePage with previewAngle := some "315" }).previewAngle =
      some "315" :=
  ⟨by decide, by decide,
    (preview_angle_cycle { samplePage with previewAngle := some "315" } 315
      (by decide) (by decide)).1,
    (preview_angle_cycle { samplePage with previewAngle := some "315" } 315
      (by decide) (by decide)).2.1,
    (preview_angle_cycle { samplePage with previewAngle := some "315" } 315
      (by decide) (by decide)).2.2.2.2.2.1⟩

/-! ## File type icons -/

/-- Splitting always gives at least one piece. -/
theorem split_ne_nil (sep : Char) (cs : List Char) : split sep cs ≠ [] := by
  cases cs with
  | nil => simp [split]
  | cons c cs =>
    simp only [split]
    split_ifs
    · simp
    · split <;> simp

/-- A string without the separator is its own single piece. -/
theorem split_of_not_mem (sep : Char) (cs : List Char) (h : sep ∉ cs) : split sep cs = [cs] := by
  induction cs with
  | nil => rfl
  | cons c cs ih =>
    have hc : ¬ c = sep := fun e => h (by simp [e])
    have hcs : sep ∉ cs := fun m => h (List.mem_cons_of_mem _ m)
    simp only [split, hc, if_false, ih hcs]

/-- A separator in front opens an empty piece. -/
theorem split_cons_sep (sep : Char) (cs : List Char) :
    split sep (sep :: cs) = [] :: split sep cs := by
  simp [split]

/-- Another character in front joins the first piece. -/
theorem split_cons_ne (sep c : Char) (cs piece : List Char) (pieces : List (List Char))
    (hc : ¬ c = sep) (hs : split sep cs = piece :: pieces) :
    split sep (c :: cs) = (c :: piece) :: pieces := by
  simp [split, hc, hs]

/-- Splitting around one separator: the pieces before it, then the pieces
after it. -/
theorem split_append (sep : Char) (xs ys : List Char) :
    split sep (xs ++ sep :: ys) = split sep xs ++ split sep ys := by
  induction xs with
  | nil => rw [List.nil_append, split_cons_sep]; rfl
  | cons c xs ih =>
    rw [List.cons_append]
    by_cases hc : c = sep
    · subst hc
      rw [split_cons_sep, split_cons_sep, ih, List.cons_append]
    · cases hx : split sep xs with
      | nil => exact absurd hx (split_ne_nil sep xs)
      | cons piece pieces =>
        rw [split_cons_ne sep c xs piece pieces hc hx,
          split_cons_ne sep c _ piece (pieces ++ split sep ys) hc (by rw [ih, hx, List.cons_append]),
          List.cons_append]

/-- The last piece of a name that ends in a dot and a dot-free suffix is that
suffix. -/
theorem splitPop_append (x ext : String) (h : '.' ∉ ext.data) :
    splitPop (x ++ "." ++ ext) = ext := by
  have hdata : (x ++ "." ++ ext).data = x.data ++ '.' :: ext.data := by
    simp [String.data_append]
  unfold splitPop
  rw [hdata, split_append, split_of_not_mem '.' ext.data h]
  simp

/-- A name without a dot is its own last piece. -/
theorem splitPop_of_not_mem (name : String) (h : '.' ∉ name.data) : splitPop name = name := by
  unfold splitPop
  rw [split_of_not_mem '.' name.data h]
  simp

/-- The switch of `updateFormatTags` is the table. -/
theorem formatTagIconClass_table (lower : String → String) (type : String) :
    formatTagIconClass lower type = "fas " ++ tableIcon (lower type) := by
  simp only [formatTagIconClass, tableIcon]
  split_ifs <;> simp_all

/-- The switch of `updateFileName` is the table. -/
theorem fileIconClass_table (lower : String → String) (fileName : String) :
    fileIconClass lower fileName = "fas " ++ tableIcon (lower (splitPop fileName)) := by
  simp only [fileIconClass, tableIcon]
  split_ifs <;> simp_all

/-- Lowering neither makes nor removes a dot. -/
theorem toLowerCaseChar_eq_dot (c : Char) : toLowerCaseChar c = '.' ↔ c = '.' := by
  unfold toLowerCaseChar
  split <;> simp_all

/-- The lower-cased string has a dot exactly when the string has one. -/
theorem toLowerCase_dot (s : String) : '.' ∈ (toLowerCase s).data ↔ '.' ∈ s.data := by
  simp only [toLowerCase, List.mem_map]
  constructor
  · rintro ⟨c, hc, he⟩
    rw [(toLowerCaseChar_eq_dot c).mp he] at hc
    exact hc
  · intro h
    exact ⟨'.', h, rfl⟩

/-- A capital ASCII letter and the character 32 places above it lower to the
same character. -/
theorem toLowerCaseChar_capital (c d : Char) (h1 : 65 ≤ c.toNat) (h2 : c.toNat ≤ 90)
    (h3 : d.toNat = c.toNat + 32) : toLowerCaseChar c = toLowerCaseChar d := by
  have hc := Char.ofNat_toNat c
  have hd := Char.ofNat_toNat d
  rw [h3] at hd
  generalize c.toNat = n at h1 h2 hc hd
  subst hc
  subst hd
  interval_cases n <;> decide

/-- The two cases of an ASCII letter lower to the same character. -/
theorem toLowerCaseChar_swap (c d : Char) (h : asciiCaseSwap c d) :
    toLowerCaseChar c = toLowerCaseChar d := by
  rcases h with h | ⟨h1, h2, h3⟩ | ⟨h1, h2, h3⟩
  · rw [h]
  · exact toLowerCaseChar_capital c d h1 h2 h3
  · exact (toLowerCaseChar_capital d c h1 h2 h3).symm

/-- Strings that differ in the case of ASCII letters only lower to the same
string. -/
theorem toLowerCase_asciiCaseVariant (a b : String) (h : AsciiCaseVariant a b) :
    toLowerCase b = toLowerCase a := by
  have hmap : ∀ xs ys : List Char, List.Forall₂ asciiCaseSwap xs ys →
      ys.map toLowerCaseChar = xs.map toLowerCaseChar := by
    intro xs ys hxy
    induction hxy with
    | nil => rfl
    | cons hcd _ ih => simp only [List.map_cons, ih, toLowerCaseChar_swap _ _ hcd]
  simp only [toLowerCase, hmap a.data b.data h]

/-- C11 as stated fails on the type "xlſx", written with the long s U+017F and
without a dot. Its upper case is "XLSX", which is what the tag made by
`updateFormatTags` reads; the tag gets the icon fa-file, since the lower case
of the type is the type itself, while a file named "a.XLSX" gets
fa-file-excel. -/
theorem icon_choosers_long_s_counterexample :
    '.' ∉ ("xlſx" : String).data ∧
    toUpperCase "xlſx" = "XLSX" ∧
    toLowerCase "xlſx" = "xlſx" ∧
    toLowerCase "XLSX" = "xlsx" ∧
    updateFormatTags toLowerCase toUpperCase ["xlſx"] =
      [{ className := "format-tag", textContent := "XLSX",
         iconClass := "fas fa-file", iconMarginRight := "6px" }] ∧
    (updateFileName toLowerCase (boxWith ("a" ++ "." ++ "XLSX"))).iconClass =
      "fas fa-file-excel" ∧
    formatTagIconClass toLowerCase "xlſx" ≠
      (updateFileName toLowerCase (boxWith ("a" ++ "." ++ "XLSX"))).iconClass := by
  decide

/-- C11, amended: for a type `t` without a dot and a string `u` whose lower
case is the lower case of `t`, the icon class `updateFormatTags` gives the tag
of `t` is the one `updateFileName` gives every file named `x`, a dot, `u`;
this covers every `v` that differs from `t` in the case of ASCII letters only.
Both choosers follow the table: "pdf", "docx", "xlsx", "pptx" give
fa-file-pdf, fa-file-word, fa-file-excel, fa-file-powerpoint, "jpg", "jpeg",
"png" give fa-file-image, "odt", "rtf" give fa-file-alt, anything else
fa-file. A file name without a dot is looked up whole, lower-cased, so a file
named "pdf" gets fa-file-pdf. `lower` is the method `toLowerCase`, of which
two facts are used: it neither makes nor removes a dot, and it does not tell
the two cases of an ASCII letter apart. -/
theorem icon_choosers_agree (lower upper : String → String)
    (hlower : ∀ s : String, '.' ∈ (lower s).data ↔ '.' ∈ s.data)
    (hascii : ∀ a b : String, AsciiCaseVariant a b → lower b = lower a)
    (t u x : String) (hdot : '.' ∉ t.data) (hcase : lower u = lower t) :
    (updateFormatTags lower upper [t]).map FormatTag.iconClass = [formatTagIconClass lower t] ∧
    (∀ (b : FileBox) (size : Nat) (rest : List File),
      (updateFileName lower
        { b with files := { name := x ++ "." ++ u, size := size } :: rest }).iconClass =
        formatTagIconClass lower t) ∧
    (∀ (v : String), AsciiCaseVariant t v →
      ∀ (b : FileBox) (size : Nat) (rest : List File),
      (updateFileName lower
        { b with files := { name := x ++ "." ++ v, size := size } :: rest }).iconClass =
        formatTagIconClass lower t) ∧
    formatTagIconClass lower t = "fas " ++ tableIcon (lower t) ∧
    (∀ (b : FileBox) (file0 : File) (rest : List File), b.files = file0 :: rest →
      (updateFileName lower b).iconClass = "fas " ++ tableIcon (lower (splitPop file0.name))) ∧
    (∀ (b : FileBox) (file0 : File) (rest : List File), b.files = file0 :: rest →
      '.' ∉ file0.name.data →
      (updateFileName lower b).iconClass = "fas " ++ tableIcon (lower file0.name)) ∧
    (lower "pdf" = "pdf" → ∀ (b : FileBox) (size : Nat) (rest : List File),
      (updateFileName lower { b with files := { name := "pdf", size := size } :: rest }).iconClass =
        "fas fa-file-pdf") := by
  have hnodot : ∀ w : String, lower w = lower t → '.' ∉ w.data := by
    intro w hw hm
    have h1 : '.' ∈ (lower w).data := (hlower w).mpr hm
    rw [hw] at h1
    exact hdot ((hlower t).mp h1)
  have hfile : ∀ (b : FileBox) (file0 : File) (rest : List File), b.files = file0 :: rest →
      (updateFileName lower b).iconClass = fileIconClass lower file0.name := by
    intro b file0 rest hb
    simp only [updateFileName, hb]
  have hagree : ∀ w : String, lower w = lower t →
      ∀ (b : FileBox) (size : Nat) (rest : List File),
      (updateFileName lower
        { b with files := { name := x ++ "." ++ w, size := size } :: rest }).iconClass =
        formatTagIconClass lower t := by
    intro w hw b size rest
    rw [hfile _ _ rest rfl, fileIconClass_table, formatTagIconClass_table,
      splitPop_append x w (hnodot w hw), hw]
  refine ⟨rfl, hagree u hcase, fun v hv => hagree v (hascii t v hv),
    formatTagIconClass_table lower t, ?_, ?_, ?_⟩
  · intro b file0 rest hb
    rw [hfile b file0 rest hb, fileIconClass_table]
  · intro b file0 rest hb hnd
    rw [hfile b file0 rest hb, fileIconClass_table, splitPop_of_not_mem _ hnd]
  · intro hpdf b size rest
    rw [hfile _ _ rest rfl, fileIconClass_table, splitPop_of_not_mem "pdf" (by decide), hpdf]
    decide

/-- The strings "pdf" and "PdF" differ in the case of ASCII letters only. -/
theorem pdf_asciiCaseVariant : AsciiCaseVariant "pdf" "PdF" :=
  List.Forall₂.cons (Or.inr (Or.inr ⟨by decide, by decide, by decide⟩))
    (List.Forall₂.cons (Or.inl rfl)
      (List.Forall₂.cons (Or.inr (Or.inr ⟨by decide, by decide, by decide⟩)) List.Forall₂.nil))

/-- Running the amended C11 with the map `toLowerCase` on the type "pdf" and
the files "report.PDF" and "report.PdF", and on a file named "pdf". -/
theorem icon_choosers_agree_witness :
    (∀ s : String, '.' ∈ (toLowerCase s).data ↔ '.' ∈ s.data) ∧
    (∀ a b : String, AsciiCaseVariant a b → toLowerCase b = toLowerCase a) ∧
    '.' ∉ ("pdf" : String).data ∧ toLowerCase "PDF" = toLowerCase "pdf" ∧
    (updateFileName toLowerCase (boxWith "report.PDF")).iconClass =
      formatTagIconClass toLowerCase "pdf" ∧
    AsciiCaseVariant "pdf" "PdF" ∧
    (updateFileName toLowerCase (boxWith "report.PdF")).iconClass =
      formatTagIconClass toLowerCase "pdf" ∧
    formatTagIconClass toLowerCase "pdf" = "fas fa-file-pdf" ∧
    (updateFileName toLowerCase (boxWith "pdf")).iconClass = "fas fa-file-pdf" :=
  ⟨toLowerCase_dot, toLowerCase_asciiCaseVariant, by decide, by decide,
    (icon_choosers_agree toLowerCase toUpperCase toLowerCase_dot toLowerCase_asciiCaseVariant
      "pdf" "PDF" "report" (by decide) (by decide)).2.1 (boxWith "report.PDF") 1024 [],
    pdf_asciiCaseVariant,
    (icon_choosers_agree toLowerCase toUpperCase toLowerCase_dot toLowerCase_asciiCaseVariant
      "pdf" "PDF" "report" (by decide) (by decide)).2.2.1 "PdF" pdf_asciiCaseVariant
      (boxWith "report.PdF") 1024 [],
    by decide,
    (icon_choosers_agree toLowerCase toUpperCase toLowerCase_dot toLowerCase_asciiCaseVariant
      "pdf" "PDF" "report" (by decide) (by decide)).2.2.2.2.2.2 (by decide)
      (boxWith "pdf") 1024 []⟩

end WatermarkTool
